import Mathlib

/-!
Verification development for `gnosis/eth/clients/sourcify.py` (safe-eth-py).

The module fetches verified smart-contract metadata from the Sourcify
repository, trying a `full_match` lookup first and falling back to
`partial_match`.  We embed the Python code shallowly:

* JSON documents become the inductive `Json`; Python truthiness becomes
  `Json.isTruthy`; dict indexing, `dict.get` and `dict.values` become
  `Json.getItem`, `Json.dictGet` and `Json.values`, each returning
  `Except PyError _` because the Python operations can raise.
* The network is an explicit environment `net : Nat → String → Nat →
  HttpResult` mapping (session handle, url, timeout) to the observable
  outcome of `requests.Session.get` followed by `.ok` / `.json()`:
  either a transport-level exception, or a response with an `ok` flag
  and a body that may or may not parse as JSON.
* `Sourcify.get_contract_metadata` returns, besides the Python return
  value (an `Except` because the code can raise), the ordered list of
  URLs it issued GET requests for, and the (unchanged) object state.
-/

/-- A JSON value as produced by `response.json()`.  Object entries keep
insertion order, as Python dicts do; `dict.values()` order below relies
on this. -/
inductive Json : Type where
  | null : Json
  | bool (b : Bool) : Json
  | num (n : Int) : Json
  | str (s : String) : Json
  | arr (elems : List Json) : Json
  | obj (entries : List (String × Json)) : Json

/-- Python truthiness of a JSON value: `None`, `False`, `0`, `""`, `[]`
and `{}` are falsy, everything else truthy.  This is the test performed
by `if metadata:` in `get_contract_metadata`. -/
def Json.isTruthy : Json → Bool
  | .null => false
  | .bool b => b
  | .num n => n != 0
  | .str s => !s.isEmpty
  | .arr elems => !elems.isEmpty
  | .obj entries => !entries.isEmpty

/-- Exceptions the embedded code can raise. -/
inductive PyError : Type where
  | assertionError (msg : String) : PyError
  | keyError (key : String) : PyError
  | typeError : PyError
  | attributeError : PyError
  | jsonDecodeError : PyError
  | transportError : PyError
deriving DecidableEq

/-- Python `d[key]` on a JSON value: first value bound to `key` for a
dict (KeyError when absent), TypeError for any non-dict. -/
def Json.getItem (self : Json) (key : String) : Except PyError Json :=
  match self with
  | .obj entries =>
    match List.lookup key entries with
    | some v => .ok v
    | none => .error (.keyError key)
  | _ => .error .typeError

/-- Python `d.get(key, default)`: only dicts have `.get`
(AttributeError otherwise). -/
def Json.dictGet (self : Json) (key : String) (default : Json) : Except PyError Json :=
  match self with
  | .obj entries => .ok ((List.lookup key entries).getD default)
  | _ => .error .attributeError

/-- Python `list(d.values())` in insertion order: only dicts have
`.values` (AttributeError otherwise). -/
def Json.values (self : Json) : Except PyError (List Json) :=
  match self with
  | .obj entries => .ok (entries.map Prod.snd)
  | _ => .error .attributeError

/-- Observable outcome of one HTTP GET attempt: a transport-level
exception (connection refused, timeout, ...) raised by
`requests.Session.get`, or a response carrying `response.ok` and a body
whose JSON parse is `some` value or `none` when `response.json()` would
raise. -/
inductive HttpResult : Type where
  | transportError : HttpResult
  | response (ok : Bool) (body : Option Json) : HttpResult

/-- Modelled from the spec: `ContractMetadata` lives in
`contract_metadata.py`, which is outside the sources in scope; per the
spec it is the output record with an optional contract name, the ABI,
and the partial-match flag, constructed positionally as
`ContractMetadata(name, abi, match_type == "partial_match")`. -/
structure ContractMetadata : Type where
  name : Option Json
  abi : Json
  partial_match : Bool

/-- The `Sourcify` client state set up by `__init__`.  `network` models
`self.network.value`, the numeric chain id (`EthereumNetwork.MAINNET`
has value 1); `http_session` is an opaque handle to the pooled
`requests.Session`. -/
structure Sourcify : Type where
  network : Nat
  base_url : String
  request_timeout : Nat
  http_session : Nat

/-- Split a character list at the first occurrence of `"://"`,
returning the part before it and the part after it. -/
def splitFirstSchemeSep : List Char → Option (List Char × List Char)
  | [] => none
  | ':' :: '/' :: '/' :: tl => some ([], tl)
  | c :: rest => (splitFirstSchemeSep rest).map (fun p => (c :: p.1, p.2))

/-- Model of `urllib.parse.urljoin` restricted to how this client uses
it: the second argument always begins with a single `/`, so the result
keeps the scheme and network location of the base URL and replaces the
base's whole path with the second argument.  The network location ends
at the first `/`, `?` or `#` after the `://`; a base without `://` has
empty scheme and network location, leaving just the path. -/
def urljoin (base relpath : String) : String :=
  match splitFirstSchemeSep base.data with
  | some (scheme, afterScheme) =>
    let netloc := afterScheme.takeWhile (fun c => !(c == '/' || c == '?' || c == '#'))
    String.mk scheme ++ "://" ++ String.mk netloc ++ relpath
  | none => relpath

/-- Embedding of `Sourcify._get_abi_from_metadata`:
`return metadata["output"]["abi"]`. -/
def Sourcify._get_abi_from_metadata (_self : Sourcify) (metadata : Json) :
    Except PyError Json := do
  let output ← Json.getItem metadata "output"
  Json.getItem output "abi"

/-- Embedding of `Sourcify._get_name_from_metadata`:
`values = list(metadata["settings"].get("compilationTarget", {}).values())`,
returning `values[0]` when the list is non-empty and `None` (falling
off the function) otherwise. -/
def Sourcify._get_name_from_metadata (_self : Sourcify) (metadata : Json) :
    Except PyError (Option Json) := do
  let settings ← Json.getItem metadata "settings"
  let target ← Json.dictGet settings "compilationTarget" (Json.obj [])
  let vals ← Json.values target
  match vals with
  | v :: _ => pure (some v)
  | [] => pure none

/-- Embedding of `Sourcify._do_request`: perform the GET through the
session with the configured timeout; return `None` when the response is
not `ok`, otherwise `response.json()`.  A transport exception or a JSON
decode failure propagates: nothing in the source catches it. -/
def Sourcify._do_request (self : Sourcify) (net : Nat → String → Nat → HttpResult)
    (url : String) : Except PyError (Option Json) :=
  match net self.http_session url self.request_timeout with
  | .transportError => .error .transportError
  | .response ok body =>
    if !ok then .ok none
    else
      match body with
      | none => .error .jsonDecodeError
      | some j => .ok (some j)

/-- The URL built inside the loop of `get_contract_metadata` for one
match type. -/
def Sourcify.requestUrl (self : Sourcify) (match_type : String)
    (contract_address : String) : String :=
  urljoin self.base_url
    ("/contracts/" ++ match_type ++ "/" ++ toString self.network ++ "/"
      ++ contract_address ++ "/metadata.json")

/-- The `for match_type in ("full_match", "partial_match")` loop body of
`get_contract_metadata`, recursing over the remaining match types.
Besides the Python result it returns the list of URLs requested, in
order.  A raised exception (from `_do_request` or the two extraction
helpers) aborts the loop; a `None` or falsy `metadata` falls through to
the next match type; a truthy one builds the record and stops. -/
def Sourcify.lookupLoop (self : Sourcify) (net : Nat → String → Nat → HttpResult)
    (contract_address : String) :
    List String → Except PyError (Option ContractMetadata) × List String
  | [] => (.ok none, [])
  | match_type :: rest =>
    let url := Sourcify.requestUrl self match_type contract_address
    match Sourcify._do_request self net url with
    | .error e => (.error e, [url])
    | .ok none =>
      let r := Sourcify.lookupLoop self net contract_address rest
      (r.1, url :: r.2)
    | .ok (some metadata) =>
      if metadata.isTruthy then
        match
          (do
            let abi ← Sourcify._get_abi_from_metadata self metadata
            let name ← Sourcify._get_name_from_metadata self metadata
            pure (ContractMetadata.mk name abi (match_type == "partial_match")) :
            Except PyError ContractMetadata) with
        | .error e => (.error e, [url])
        | .ok m => (.ok (some m), [url])
      else
        let r := Sourcify.lookupLoop self net contract_address rest
        (r.1, url :: r.2)

/-- Embedding of `Sourcify.get_contract_metadata`.  The checksum
validator `fast_is_checksum_address` (defined in `gnosis/eth/utils.py`,
outside the sources in scope) is passed in as an opaque predicate: the
method first asserts it on the address, then runs the match-type loop.
Returned are the Python result, the ordered list of URLs requested, and
the object state after the call (no statement in the method assigns to
`self`, so it is returned unchanged). -/
def Sourcify.get_contract_metadata (self : Sourcify)
    (fast_is_checksum_address : String → Bool)
    (net : Nat → String → Nat → HttpResult) (contract_address : String) :
    Except PyError (Option ContractMetadata) × List String × Sourcify :=
  if fast_is_checksum_address contract_address then
    let r := Sourcify.lookupLoop self net contract_address
      ["full_match", "partial_match"]
    (r.1, r.2, self)
  else
    (.error (.assertionError "Expecting a checksummed address"), [], self)

/-- An attempt "falls through" to the next match type when its request
returns a non-`ok` response (so `_do_request` returns `None`) or a
successful response whose JSON body is falsy. -/
def attemptFallsThrough (s : Sourcify) (net : Nat → String → Nat → HttpResult)
    (url : String) : Prop :=
  Sourcify._do_request s net url = .ok none ∨
    ∃ j, Sourcify._do_request s net url = .ok (some j) ∧ j.isTruthy = false

/-! ### Concrete fixtures

Concrete clients, documents and network environments used to
instantiate the theorems below; `addr0`, `s0` and the two URLs realise
the concrete scenario given in the spec. -/

/-- The checksummed address of the spec's concrete scenario. -/
def addr0 : String := "0xAbC1230000000000000000000000000000000A"

/-- A client with the default configuration: mainnet (chain id 1),
default base URL, 10 second timeout. -/
def s0 : Sourcify := Sourcify.mk 1 "https://repo.sourcify.dev/" 10 0

/-- A client whose base URL carries a path component. -/
def sBad : Sourcify := Sourcify.mk 1 "https://example.com/repo/" 10 0

/-- A checksum validator accepting every address. -/
def chkAll : String → Bool := fun _ => true

/-- A checksum validator rejecting every address. -/
def chkNone : String → Bool := fun _ => false

/-- The full-match URL for `s0` and `addr0`. -/
def fullUrl0 : String :=
  "https://repo.sourcify.dev/contracts/full_match/1/0xAbC1230000000000000000000000000000000A/metadata.json"

/-- The partial-match URL for `s0` and `addr0`. -/
def partialUrl0 : String :=
  "https://repo.sourcify.dev/contracts/partial_match/1/0xAbC1230000000000000000000000000000000A/metadata.json"

/-- A well-formed metadata document: one ABI entry, one compilation
target named "MyContract". -/
def doc0 : Json :=
  Json.obj
    [("output", Json.obj [("abi", Json.arr [Json.str "entry"])]),
     ("settings", Json.obj
        [("compilationTarget", Json.obj [("contracts/My.sol", Json.str "MyContract")])])]

/-- A truthy metadata document with `output.abi` but no `settings` key. -/
def docNoSettings : Json :=
  Json.obj [("output", Json.obj [("abi", Json.arr [Json.str "entry"])])]

/-- A well-formed metadata document whose `compilationTarget` mapping is
empty. -/
def docEmptyTarget : Json :=
  Json.obj
    [("output", Json.obj [("abi", Json.arr [Json.str "entry"])]),
     ("settings", Json.obj [("compilationTarget", Json.obj [])])]

/-- Environment serving `doc0` at the full-match URL and 404 elsewhere. -/
def netFull : Nat → String → Nat → HttpResult := fun _ url _ =>
  if url = fullUrl0 then HttpResult.response true (some doc0)
  else HttpResult.response false none

/-- Environment answering 404 (non-ok, unparsed body) everywhere. -/
def net404 : Nat → String → Nat → HttpResult := fun _ _ _ =>
  HttpResult.response false none

/-- Environment raising a transport error on every request. -/
def netTrans : Nat → String → Nat → HttpResult := fun _ _ _ =>
  HttpResult.transportError

/-- Environment answering 200 with the (falsy) empty JSON object
everywhere. -/
def netFalsy : Nat → String → Nat → HttpResult := fun _ _ _ =>
  HttpResult.response true (some (Json.obj []))

/-- Environment answering 200 with a body that is not valid JSON
everywhere. -/
def netBadJson : Nat → String → Nat → HttpResult := fun _ _ _ =>
  HttpResult.response true none

/-- Environment serving `docNoSettings` at the full-match URL and 404
elsewhere. -/
def netNoSettings : Nat → String → Nat → HttpResult := fun _ url _ =>
  if url = fullUrl0 then HttpResult.response true (some docNoSettings)
  else HttpResult.response false none

/-- Environment serving `docEmptyTarget` at the full-match URL and 404
elsewhere. -/
def netEmptyTarget : Nat → String → Nat → HttpResult := fun _ url _ =>
  if url = fullUrl0 then HttpResult.response true (some docEmptyTarget)
  else HttpResult.response false none

/-- Environment serving `doc0` at the partial-match URL only, 404
elsewhere (in particular at the full-match URL). -/
def netPartialOnly : Nat → String → Nat → HttpResult := fun _ url _ =>
  if url = partialUrl0 then HttpResult.response true (some doc0)
  else HttpResult.response false none

/-- Environment serving `docNoSettings` at the partial-match URL only,
404 elsewhere (in particular at the full-match URL). -/
def netNoSettingsP : Nat → String → Nat → HttpResult := fun _ url _ =>
  if url = partialUrl0 then HttpResult.response true (some docNoSettings)
  else HttpResult.response false none

/-! ### Helper lemmas -/

lemma get_contract_metadata_checksum_ok {s : Sourcify} {chk : String → Bool}
    {net : Nat → String → Nat → HttpResult} {a : String} (h : chk a = true) :
    Sourcify.get_contract_metadata s chk net a =
      ((Sourcify.lookupLoop s net a ["full_match", "partial_match"]).1,
        (Sourcify.lookupLoop s net a ["full_match", "partial_match"]).2, s) := by
  simp [Sourcify.get_contract_metadata, h]

lemma do_request_transport {s : Sourcify} {net : Nat → String → Nat → HttpResult}
    {url : String} (h : net s.http_session url s.request_timeout = .transportError) :
    Sourcify._do_request s net url = .error .transportError := by
  simp [Sourcify._do_request, h]

lemma do_request_not_ok {s : Sourcify} {net : Nat → String → Nat → HttpResult}
    {url : String} {b : Option Json}
    (h : net s.http_session url s.request_timeout = .response false b) :
    Sourcify._do_request s net url = .ok none := by
  simp [Sourcify._do_request, h]

lemma do_request_bad_json {s : Sourcify} {net : Nat → String → Nat → HttpResult}
    {url : String} (h : net s.http_session url s.request_timeout = .response true none) :
    Sourcify._do_request s net url = .error .jsonDecodeError := by
  simp [Sourcify._do_request, h]

lemma do_request_json {s : Sourcify} {net : Nat → String → Nat → HttpResult}
    {url : String} {j : Json}
    (h : net s.http_session url s.request_timeout = .response true (some j)) :
    Sourcify._do_request s net url = .ok (some j) := by
  simp [Sourcify._do_request, h]

lemma lookupLoop_cons_error {s : Sourcify} {net : Nat → String → Nat → HttpResult}
    {a mt : String} {rest : List String} {e : PyError}
    (h : Sourcify._do_request s net (Sourcify.requestUrl s mt a) = .error e) :
    Sourcify.lookupLoop s net a (mt :: rest) = (.error e, [Sourcify.requestUrl s mt a]) := by
  simp only [Sourcify.lookupLoop, h]

lemma lookupLoop_cons_fall {s : Sourcify} {net : Nat → String → Nat → HttpResult}
    {a mt : String} {rest : List String}
    (h : attemptFallsThrough s net (Sourcify.requestUrl s mt a)) :
    Sourcify.lookupLoop s net a (mt :: rest) =
      ((Sourcify.lookupLoop s net a rest).1,
        Sourcify.requestUrl s mt a :: (Sourcify.lookupLoop s net a rest).2) := by
  rcases h with h | ⟨j, h, hj⟩
  · simp only [Sourcify.lookupLoop, h]
  · simp only [Sourcify.lookupLoop, h, hj]
    simp

lemma lookupLoop_cons_found {s : Sourcify} {net : Nat → String → Nat → HttpResult}
    {a mt : String} {rest : List String} {j abi : Json} {name : Option Json}
    (h : Sourcify._do_request s net (Sourcify.requestUrl s mt a) = .ok (some j))
    (hj : j.isTruthy = true)
    (habi : Sourcify._get_abi_from_metadata s j = .ok abi)
    (hname : Sourcify._get_name_from_metadata s j = .ok name) :
    Sourcify.lookupLoop s net a (mt :: rest) =
      (.ok (some (ContractMetadata.mk name abi (mt == "partial_match"))),
        [Sourcify.requestUrl s mt a]) := by
  simp only [Sourcify.lookupLoop, h, hj]
  simp [habi, hname, Bind.bind, Except.bind, Pure.pure, Except.pure]

lemma lookupLoop_cons_abi_error {s : Sourcify} {net : Nat → String → Nat → HttpResult}
    {a mt : String} {rest : List String} {j : Json} {e : PyError}
    (h : Sourcify._do_request s net (Sourcify.requestUrl s mt a) = .ok (some j))
    (hj : j.isTruthy = true)
    (habi : Sourcify._get_abi_from_metadata s j = .error e) :
    Sourcify.lookupLoop s net a (mt :: rest) =
      (.error e, [Sourcify.requestUrl s mt a]) := by
  simp only [Sourcify.lookupLoop, h, hj]
  simp [habi, Bind.bind, Except.bind, Pure.pure, Except.pure]

lemma lookupLoop_cons_name_error {s : Sourcify} {net : Nat → String → Nat → HttpResult}
    {a mt : String} {rest : List String} {j abi : Json} {e : PyError}
    (h : Sourcify._do_request s net (Sourcify.requestUrl s mt a) = .ok (some j))
    (hj : j.isTruthy = true)
    (habi : Sourcify._get_abi_from_metadata s j = .ok abi)
    (hname : Sourcify._get_name_from_metadata s j = .error e) :
    Sourcify.lookupLoop s net a (mt :: rest) =
      (.error e, [Sourcify.requestUrl s mt a]) := by
  simp only [Sourcify.lookupLoop, h, hj]
  simp [habi, hname, Bind.bind, Except.bind, Pure.pure, Except.pure]

/-- Every run of the two-attempt loop requests the full-match URL first
and the partial-match URL after it or not at all. -/
lemma lookupLoop_two_trace (s : Sourcify) (net : Nat → String → Nat → HttpResult)
    (a : String) :
    (Sourcify.lookupLoop s net a ["full_match", "partial_match"]).2 =
        [Sourcify.requestUrl s "full_match" a] ∨
      (Sourcify.lookupLoop s net a ["full_match", "partial_match"]).2 =
        [Sourcify.requestUrl s "full_match" a, Sourcify.requestUrl s "partial_match" a] := by
  cases h1 : Sourcify._do_request s net (Sourcify.requestUrl s "full_match" a) with
  | error e => left; rw [lookupLoop_cons_error h1]
  | ok o =>
    cases o with
    | none =>
      rw [lookupLoop_cons_fall (Or.inl h1)]
      cases h2 : Sourcify._do_request s net (Sourcify.requestUrl s "partial_match" a) with
      | error e => right; rw [lookupLoop_cons_error h2]
      | ok o2 =>
        cases o2 with
        | none => right; rw [lookupLoop_cons_fall (Or.inl h2), Sourcify.lookupLoop]
        | some j2 =>
          cases hj2 : j2.isTruthy with
          | false => right; rw [lookupLoop_cons_fall (Or.inr ⟨j2, h2, hj2⟩), Sourcify.lookupLoop]
          | true =>
            cases habi : Sourcify._get_abi_from_metadata s j2 with
            | error e => right; rw [lookupLoop_cons_abi_error h2 hj2 habi]
            | ok abi =>
              cases hname : Sourcify._get_name_from_metadata s j2 with
              | error e => right; rw [lookupLoop_cons_name_error h2 hj2 habi hname]
              | ok name => right; rw [lookupLoop_cons_found h2 hj2 habi hname]
    | some j =>
      cases hj : j.isTruthy with
      | false =>
        rw [lookupLoop_cons_fall (Or.inr ⟨j, h1, hj⟩)]
        cases h2 : Sourcify._do_request s net (Sourcify.requestUrl s "partial_match" a) with
        | error e => right; rw [lookupLoop_cons_error h2]
        | ok o2 =>
          cases o2 with
          | none => right; rw [lookupLoop_cons_fall (Or.inl h2), Sourcify.lookupLoop]
          | some j2 =>
            cases hj2 : j2.isTruthy with
            | false => right; rw [lookupLoop_cons_fall (Or.inr ⟨j2, h2, hj2⟩), Sourcify.lookupLoop]
            | true =>
              cases habi : Sourcify._get_abi_from_metadata s j2 with
              | error e => right; rw [lookupLoop_cons_abi_error h2 hj2 habi]
              | ok abi =>
                cases hname : Sourcify._get_name_from_metadata s j2 with
                | error e => right; rw [lookupLoop_cons_name_error h2 hj2 habi hname]
                | ok name => right; rw [lookupLoop_cons_found h2 hj2 habi hname]
      | true =>
        cases habi : Sourcify._get_abi_from_metadata s j with
        | error e => left; rw [lookupLoop_cons_abi_error h1 hj habi]
        | ok abi =>
          cases hname : Sourcify._get_name_from_metadata s j with
          | error e => left; rw [lookupLoop_cons_name_error h1 hj habi hname]
          | ok name => left; rw [lookupLoop_cons_found h1 hj habi hname]

/-- A one-element loop requests exactly its URL, whatever the outcome. -/
lemma lookupLoop_single_trace (s : Sourcify) (net : Nat → String → Nat → HttpResult)
    (a mt : String) :
    (Sourcify.lookupLoop s net a [mt]).2 = [Sourcify.requestUrl s mt a] := by
  cases h1 : Sourcify._do_request s net (Sourcify.requestUrl s mt a) with
  | error e => rw [lookupLoop_cons_error h1]
  | ok o =>
    cases o with
    | none => rw [lookupLoop_cons_fall (Or.inl h1), Sourcify.lookupLoop]
    | some j =>
      cases hj : j.isTruthy with
      | false => rw [lookupLoop_cons_fall (Or.inr ⟨j, h1, hj⟩), Sourcify.lookupLoop]
      | true =>
        cases habi : Sourcify._get_abi_from_metadata s j with
        | error e => rw [lookupLoop_cons_abi_error h1 hj habi]
        | ok abi =>
          cases hname : Sourcify._get_name_from_metadata s j with
          | error e => rw [lookupLoop_cons_name_error h1 hj habi hname]
          | ok name => rw [lookupLoop_cons_found h1 hj habi hname]

/-- If a loop starting at match type `mt` returns a record, either the
first attempt produced it (and the partial-match flag is
`mt == "partial_match"`, with only that URL requested), or the first
attempt fell through and the rest of the loop produced it. -/
lemma lookupLoop_cons_found_inv {s : Sourcify} {net : Nat → String → Nat → HttpResult}
    {a mt : String} {rest : List String} {m : ContractMetadata}
    (hm : (Sourcify.lookupLoop s net a (mt :: rest)).1 = .ok (some m)) :
    (m.partial_match = (mt == "partial_match") ∧
        (Sourcify.lookupLoop s net a (mt :: rest)).2 = [Sourcify.requestUrl s mt a]) ∨
      (attemptFallsThrough s net (Sourcify.requestUrl s mt a) ∧
        (Sourcify.lookupLoop s net a rest).1 = .ok (some m) ∧
        (Sourcify.lookupLoop s net a (mt :: rest)).2 =
          Sourcify.requestUrl s mt a :: (Sourcify.lookupLoop s net a rest).2) := by
  cases h1 : Sourcify._do_request s net (Sourcify.requestUrl s mt a) with
  | error e => rw [lookupLoop_cons_error h1] at hm; exact absurd hm (by simp)
  | ok o =>
    cases o with
    | none =>
      have hf : attemptFallsThrough s net (Sourcify.requestUrl s mt a) := Or.inl h1
      rw [lookupLoop_cons_fall hf] at hm
      exact Or.inr ⟨hf, hm, by rw [lookupLoop_cons_fall hf]⟩
    | some j =>
      cases hj : j.isTruthy with
      | false =>
        have hf : attemptFallsThrough s net (Sourcify.requestUrl s mt a) :=
          Or.inr ⟨j, h1, hj⟩
        rw [lookupLoop_cons_fall hf] at hm
        exact Or.inr ⟨hf, hm, by rw [lookupLoop_cons_fall hf]⟩
      | true =>
        cases habi : Sourcify._get_abi_from_metadata s j with
        | error e => rw [lookupLoop_cons_abi_error h1 hj habi] at hm; exact absurd hm (by simp)
        | ok abi =>
          cases hname : Sourcify._get_name_from_metadata s j with
          | error e =>
            rw [lookupLoop_cons_name_error h1 hj habi hname] at hm
            exact absurd hm (by simp)
          | ok name =>
            rw [lookupLoop_cons_found h1 hj habi hname] at hm
            left
            refine ⟨?_, by rw [lookupLoop_cons_found h1 hj habi hname]⟩
            simp only [Except.ok.injEq, Option.some.injEq] at hm
            rw [← hm]

/-- `_get_name_from_metadata` returns `None` only when `settings` is
present (a dict) and its `compilationTarget` is absent or the empty
dict. -/
lemma name_none_only_from_empty_target {s : Sourcify} {j : Json}
    (h : Sourcify._get_name_from_metadata s j = .ok none) :
    ∃ entries, Json.getItem j "settings" = .ok (Json.obj entries) ∧
      (List.lookup "compilationTarget" entries = none ∨
        List.lookup "compilationTarget" entries = some (Json.obj [])) := by
  rw [Sourcify._get_name_from_metadata] at h
  cases hset : Json.getItem j "settings" with
  | error e =>
    rw [hset] at h
    exact absurd h (by simp [Bind.bind, Except.bind])
  | ok st =>
    rw [hset] at h
    cases st with
    | obj entries =>
      refine ⟨entries, rfl, ?_⟩
      simp only [Bind.bind, Except.bind, Json.dictGet] at h
      cases hlk : List.lookup "compilationTarget" entries with
      | none => exact Or.inl rfl
      | some v =>
        rw [hlk] at h
        simp only [Option.getD] at h
        cases v with
        | obj tentries =>
          cases tentries with
          | nil => exact Or.inr rfl
          | cons hd tl =>
            exact absurd h (by simp [Json.values, Pure.pure, Except.pure])
        | null => exact absurd h (by simp [Json.values])
        | bool b => exact absurd h (by simp [Json.values])
        | num n => exact absurd h (by simp [Json.values])
        | str sv => exact absurd h (by simp [Json.values])
        | arr elems => exact absurd h (by simp [Json.values])
    | null => exact absurd h (by simp [Bind.bind, Except.bind, Json.dictGet])
    | bool b => exact absurd h (by simp [Bind.bind, Except.bind, Json.dictGet])
    | num n => exact absurd h (by simp [Bind.bind, Except.bind, Json.dictGet])
    | str sv => exact absurd h (by simp [Bind.bind, Except.bind, Json.dictGet])
    | arr elems => exact absurd h (by simp [Bind.bind, Except.bind, Json.dictGet])

/-! ### Claims -/

/-- C3: for every input address that does not pass checksum-address
validation, `get_contract_metadata` raises the assertion immediately and
issues no network request whatsoever: the request trace is empty. -/
theorem sourcify_invalid_address_no_request (s : Sourcify) (chk : String → Bool)
    (net : Nat → String → Nat → HttpResult) (a : String) (h : chk a = false) :
    Sourcify.get_contract_metadata s chk net a =
      (.error (.assertionError "Expecting a checksummed address"), [], s) := by
  simp [Sourcify.get_contract_metadata, h]

/-- Witness for C3 at a concrete rejected address. -/
theorem sourcify_invalid_address_no_request_witness :
    chkNone addr0 = false ∧
      Sourcify.get_contract_metadata s0 chkNone net404 addr0 =
        (.error (.assertionError "Expecting a checksummed address"), [], s0) :=
  ⟨rfl, sourcify_invalid_address_no_request s0 chkNone net404 addr0 rfl⟩

/-- C5: when both the full-match and the partial-match attempt answer a
non-success HTTP status, the call returns `None` and raises no error,
having requested both URLs in order. -/
theorem sourcify_both_not_found_returns_none (s : Sourcify) (chk : String → Bool)
    (net : Nat → String → Nat → HttpResult) (a : String) (b1 b2 : Option Json)
    (h : chk a = true)
    (h1 : net s.http_session (Sourcify.requestUrl s "full_match" a) s.request_timeout =
      .response false b1)
    (h2 : net s.http_session (Sourcify.requestUrl s "partial_match" a) s.request_timeout =
      .response false b2) :
    Sourcify.get_contract_metadata s chk net a =
      (.ok none,
        [Sourcify.requestUrl s "full_match" a, Sourcify.requestUrl s "partial_match" a],
        s) := by
  rw [get_contract_metadata_checksum_ok h,
    lookupLoop_cons_fall (Or.inl (do_request_not_ok h1)),
    lookupLoop_cons_fall (Or.inl (do_request_not_ok h2))]
  rfl

/-- Witness for C5: both endpoints answer 404. -/
theorem sourcify_both_not_found_returns_none_witness :
    chkAll addr0 = true ∧
      Sourcify.get_contract_metadata s0 chkAll net404 addr0 =
        (.ok none,
          [Sourcify.requestUrl s0 "full_match" addr0,
            Sourcify.requestUrl s0 "partial_match" addr0],
          s0) :=
  ⟨rfl, sourcify_both_not_found_returns_none s0 chkAll net404 addr0 none none rfl rfl rfl⟩

/-- C10: a call to `get_contract_metadata` leaves the client's
configuration unchanged — the state coming out of the call is the state
that went in, in particular `network`, `base_url`, `request_timeout` and
the `http_session` handle — whatever the outcome. -/
theorem sourcify_call_preserves_config (s : Sourcify) (chk : String → Bool)
    (net : Nat → String → Nat → HttpResult) (a : String) :
    (Sourcify.get_contract_metadata s chk net a).2.2 = s ∧
    (Sourcify.get_contract_metadata s chk net a).2.2.network = s.network ∧
    (Sourcify.get_contract_metadata s chk net a).2.2.base_url = s.base_url ∧
    (Sourcify.get_contract_metadata s chk net a).2.2.request_timeout = s.request_timeout ∧
    (Sourcify.get_contract_metadata s chk net a).2.2.http_session = s.http_session := by
  have hmain : (Sourcify.get_contract_metadata s chk net a).2.2 = s := by
    rw [Sourcify.get_contract_metadata]
    split <;> rfl
  exact ⟨hmain, by rw [hmain], by rw [hmain], by rw [hmain], by rw [hmain]⟩

/-- C2 counterexample: the claim says a network-level failure on an
attempt triggers fallback to the next match type and, on the last
attempt, resolves to `None` rather than an error.  With every request
raising a transport error, the call instead raises after the very first
attempt: the result is the transport exception and only the full-match
URL was ever requested. -/
theorem sourcify_transport_error_fallback_cex :
    Sourcify.get_contract_metadata s0 chkAll netTrans addr0 =
      (.error .transportError, [fullUrl0], s0) := by
  rfl

/-- C2 (amended): a network-level failure on an individual attempt is
not caught anywhere: the exception propagates to the caller, the call
does not proceed to the next match type, and a failure on the last
attempt surfaces as the error rather than as `None`. -/
theorem sourcify_transport_error_propagates (s : Sourcify) (chk : String → Bool)
    (net : Nat → String → Nat → HttpResult) (a : String) (h : chk a = true) :
    (net s.http_session (Sourcify.requestUrl s "full_match" a) s.request_timeout =
        .transportError →
      Sourcify.get_contract_metadata s chk net a =
        (.error .transportError, [Sourcify.requestUrl s "full_match" a], s)) ∧
    (attemptFallsThrough s net (Sourcify.requestUrl s "full_match" a) →
      net s.http_session (Sourcify.requestUrl s "partial_match" a) s.request_timeout =
        .transportError →
      Sourcify.get_contract_metadata s chk net a =
        (.error .transportError,
          [Sourcify.requestUrl s "full_match" a, Sourcify.requestUrl s "partial_match" a],
          s)) := by
  constructor
  · intro h1
    rw [get_contract_metadata_checksum_ok h,
      lookupLoop_cons_error (do_request_transport h1)]
  · intro hf h2
    rw [get_contract_metadata_checksum_ok h, lookupLoop_cons_fall hf,
      lookupLoop_cons_error (do_request_transport h2)]

/-- Witness for the amended C2: a transport failure on the first attempt
propagates. -/
theorem sourcify_transport_error_propagates_witness :
    chkAll addr0 = true ∧
      Sourcify.get_contract_metadata s0 chkAll netTrans addr0 =
        (.error .transportError, [Sourcify.requestUrl s0 "full_match" addr0], s0) :=
  ⟨rfl, (sourcify_transport_error_propagates s0 chkAll netTrans addr0 rfl).1 rfl⟩

/-- C7 counterexample: the claim's URL template
`{baseUrl}/contracts/{matchTypeSlug}/{networkId}/{address}/metadata.json`
fails for a base URL that carries a path component: `urljoin` against
the absolute path `/contracts/...` drops the base's path, so with base
`https://example.com/repo/` the code requests
`https://example.com/contracts/...`, not
`https://example.com/repo/contracts/...`. -/
theorem sourcify_url_template_cex :
    (Sourcify.get_contract_metadata sBad chkAll net404 addr0).2.1 =
      ["https://example.com/contracts/full_match/1/0xAbC1230000000000000000000000000000000A/metadata.json",
        "https://example.com/contracts/partial_match/1/0xAbC1230000000000000000000000000000000A/metadata.json"] ∧
      "https://example.com/contracts/full_match/1/0xAbC1230000000000000000000000000000000A/metadata.json" ≠
        "https://example.com/repo/contracts/full_match/1/0xAbC1230000000000000000000000000000000A/metadata.json" :=
  ⟨rfl, by decide⟩

/-- C7 (amended): the URL requested for a match type is
`urljoin(baseUrl, "/contracts/{slug}/{networkId}/{address}/metadata.json")`,
which keeps only the scheme and host of the base URL and drops any path
the base carries; the full-match URL is always the first one requested,
and for the default base URL, network 1 and the spec's concrete address
the two URLs are exactly the expected
`https://repo.sourcify.dev/contracts/{slug}/1/{address}/metadata.json`. -/
theorem sourcify_request_url_amended (s : Sourcify) (chk : String → Bool)
    (net : Nat → String → Nat → HttpResult) (a : String) (h : chk a = true) :
    (Sourcify.get_contract_metadata s chk net a).2.1.head? =
        some (Sourcify.requestUrl s "full_match" a) ∧
    Sourcify.requestUrl s0 "full_match" addr0 = fullUrl0 ∧
    Sourcify.requestUrl s0 "partial_match" addr0 = partialUrl0 ∧
    Sourcify.requestUrl sBad "full_match" addr0 =
      "https://example.com/contracts/full_match/1/0xAbC1230000000000000000000000000000000A/metadata.json" := by
  refine ⟨?_, rfl, rfl, rfl⟩
  rw [get_contract_metadata_checksum_ok h]
  rcases lookupLoop_two_trace s net a with ht | ht <;> rw [ht] <;> rfl

/-- Witness for the amended C7 at the spec's concrete scenario. -/
theorem sourcify_request_url_amended_witness :
    chkAll addr0 = true ∧
      (Sourcify.get_contract_metadata s0 chkAll net404 addr0).2.1.head? =
        some (Sourcify.requestUrl s0 "full_match" addr0) :=
  ⟨rfl, (sourcify_request_url_amended s0 chkAll net404 addr0 rfl).1⟩

/-- C8: a 2xx response whose body parses to a falsy JSON value (empty
object, `null`, `false`, `0`, empty list, empty string) is treated as
not-found even though the body lacks `output.abi`: the call falls
through to the partial-match attempt (its result is the one-attempt
loop's result), and when that attempt also yields a non-success status
or a falsy body the call returns `None` without error. -/
theorem sourcify_falsy_body_not_found (s : Sourcify) (chk : String → Bool)
    (net : Nat → String → Nat → HttpResult) (a : String) (j : Json)
    (h : chk a = true)
    (h1 : net s.http_session (Sourcify.requestUrl s "full_match" a) s.request_timeout =
      .response true (some j))
    (hj : j.isTruthy = false) :
    (Sourcify.get_contract_metadata s chk net a).2.1 =
        [Sourcify.requestUrl s "full_match" a, Sourcify.requestUrl s "partial_match" a] ∧
    (Sourcify.get_contract_metadata s chk net a).1 =
        (Sourcify.lookupLoop s net a ["partial_match"]).1 ∧
    (∀ b2, net s.http_session (Sourcify.requestUrl s "partial_match" a) s.request_timeout =
        .response false b2 →
      (Sourcify.get_contract_metadata s chk net a).1 = .ok none) ∧
    (∀ j2, net s.http_session (Sourcify.requestUrl s "partial_match" a) s.request_timeout =
        .response true (some j2) → j2.isTruthy = false →
      (Sourcify.get_contract_metadata s chk net a).1 = .ok none) := by
  have hf : attemptFallsThrough s net (Sourcify.requestUrl s "full_match" a) :=
    Or.inr ⟨j, do_request_json h1, hj⟩
  refine ⟨?_, ?_, ?_, ?_⟩
  · rw [get_contract_metadata_checksum_ok h, lookupLoop_cons_fall hf,
      lookupLoop_single_trace]
  · rw [get_contract_metadata_checksum_ok h, lookupLoop_cons_fall hf]
  · intro b2 h2
    rw [get_contract_metadata_checksum_ok h, lookupLoop_cons_fall hf,
      lookupLoop_cons_fall (Or.inl (do_request_not_ok h2))]
    rfl
  · intro j2 h2 hj2
    rw [get_contract_metadata_checksum_ok h, lookupLoop_cons_fall hf,
      lookupLoop_cons_fall (Or.inr ⟨j2, do_request_json h2, hj2⟩)]
    rfl

/-- Witness for C8: both attempts answer 200 with body `{}`. -/
theorem sourcify_falsy_body_not_found_witness :
    (Sourcify.get_contract_metadata s0 chkAll netFalsy addr0).1 = .ok none ∧
      (Sourcify.get_contract_metadata s0 chkAll netFalsy addr0).2.1 =
        [Sourcify.requestUrl s0 "full_match" addr0,
          Sourcify.requestUrl s0 "partial_match" addr0] := by
  have h := sourcify_falsy_body_not_found s0 chkAll netFalsy addr0 (Json.obj []) rfl rfl rfl
  exact ⟨h.2.2.2 (Json.obj []) rfl rfl, h.1⟩

/-- C4 counterexample: a 200 response whose body is the valid JSON `{}`
lacks `output.abi` entirely (indexing it with "output" would raise
KeyError), yet the call does not raise: the empty object is falsy, so
the attempt falls through and the call resolves to `None`. -/
theorem sourcify_malformed_fatal_cex :
    netFalsy 0 fullUrl0 10 = HttpResult.response true (some (Json.obj [])) ∧
    Json.getItem (Json.obj []) "output" = .error (.keyError "output") ∧
    Sourcify.get_contract_metadata s0 chkAll netFalsy addr0 =
      (.ok none, [fullUrl0, partialUrl0], s0) :=
  ⟨rfl, rfl, rfl⟩

/-- C4 (amended): for every attempt whose HTTP response is successful
but whose body is not valid JSON, or whose body parses to a truthy JSON
value on which extracting `output.abi` fails, `get_contract_metadata`
propagates a fatal error to the caller: it does not return `None` and
does not fall back to the next match type.  (A successful response
whose body parses to a falsy value is instead treated as not-found.) -/
theorem sourcify_truthy_malformed_fatal (s : Sourcify) (chk : String → Bool)
    (net : Nat → String → Nat → HttpResult) (a : String) (h : chk a = true) :
    (net s.http_session (Sourcify.requestUrl s "full_match" a) s.request_timeout =
        .response true none →
      Sourcify.get_contract_metadata s chk net a =
        (.error .jsonDecodeError, [Sourcify.requestUrl s "full_match" a], s)) ∧
    (∀ j e, net s.http_session (Sourcify.requestUrl s "full_match" a) s.request_timeout =
        .response true (some j) → j.isTruthy = true →
      Sourcify._get_abi_from_metadata s j = .error e →
      Sourcify.get_contract_metadata s chk net a =
        (.error e, [Sourcify.requestUrl s "full_match" a], s)) ∧
    (attemptFallsThrough s net (Sourcify.requestUrl s "full_match" a) →
      (net s.http_session (Sourcify.requestUrl s "partial_match" a) s.request_timeout =
          .response true none →
        Sourcify.get_contract_metadata s chk net a =
          (.error .jsonDecodeError,
            [Sourcify.requestUrl s "full_match" a, Sourcify.requestUrl s "partial_match" a],
            s)) ∧
      (∀ j e, net s.http_session (Sourcify.requestUrl s "partial_match" a) s.request_timeout =
          .response true (some j) → j.isTruthy = true →
        Sourcify._get_abi_from_metadata s j = .error e →
        Sourcify.get_contract_metadata s chk net a =
          (.error e,
            [Sourcify.requestUrl s "full_match" a, Sourcify.requestUrl s "partial_match" a],
            s))) := by
  refine ⟨?_, ?_, fun hf => ⟨?_, ?_⟩⟩
  · intro h1
    rw [get_contract_metadata_checksum_ok h,
      lookupLoop_cons_error (do_request_bad_json h1)]
  · intro j e h1 hj habi
    rw [get_contract_metadata_checksum_ok h,
      lookupLoop_cons_abi_error (do_request_json h1) hj habi]
  · intro h2
    rw [get_contract_metadata_checksum_ok h, lookupLoop_cons_fall hf,
      lookupLoop_cons_error (do_request_bad_json h2)]
  · intro j e h2 hj habi
    rw [get_contract_metadata_checksum_ok h, lookupLoop_cons_fall hf,
      lookupLoop_cons_abi_error (do_request_json h2) hj habi]

/-- Witness for the amended C4: a 200 response with an unparsable body
on the first attempt raises the decode error. -/
theorem sourcify_truthy_malformed_fatal_witness :
    chkAll addr0 = true ∧
      Sourcify.get_contract_metadata s0 chkAll netBadJson addr0 =
        (.error .jsonDecodeError, [Sourcify.requestUrl s0 "full_match" addr0], s0) :=
  ⟨rfl, (sourcify_truthy_malformed_fatal s0 chkAll netBadJson addr0 rfl).1 rfl⟩

/-- C1: with a checksummed address the full-match URL is requested
before the partial-match URL (the trace is either just the full-match
URL or the full-match URL followed by the partial-match URL), at most
two GETs are issued, a full-match attempt that yields a usable (truthy)
metadata document stops the loop so the partial-match URL is never
requested, and a returned record has `partial_match = false` exactly
when it came from the full-match attempt and `partial_match = true`
exactly when it came from the partial-match attempt. -/
theorem sourcify_full_match_first (s : Sourcify) (chk : String → Bool)
    (net : Nat → String → Nat → HttpResult) (a : String) (h : chk a = true) :
    ((Sourcify.get_contract_metadata s chk net a).2.1 =
        [Sourcify.requestUrl s "full_match" a] ∨
      (Sourcify.get_contract_metadata s chk net a).2.1 =
        [Sourcify.requestUrl s "full_match" a, Sourcify.requestUrl s "partial_match" a]) ∧
    (Sourcify.get_contract_metadata s chk net a).2.1.length ≤ 2 ∧
    (∀ j, net s.http_session (Sourcify.requestUrl s "full_match" a) s.request_timeout =
          .response true (some j) → j.isTruthy = true →
      (Sourcify.get_contract_metadata s chk net a).2.1 =
        [Sourcify.requestUrl s "full_match" a]) ∧
    (∀ m, (Sourcify.get_contract_metadata s chk net a).1 = .ok (some m) →
      (m.partial_match = false ∧
          (Sourcify.get_contract_metadata s chk net a).2.1 =
            [Sourcify.requestUrl s "full_match" a]) ∨
        (m.partial_match = true ∧
          (Sourcify.get_contract_metadata s chk net a).2.1 =
            [Sourcify.requestUrl s "full_match" a,
              Sourcify.requestUrl s "partial_match" a])) := by
  have e := @get_contract_metadata_checksum_ok s chk net a h
  have htr : (Sourcify.get_contract_metadata s chk net a).2.1 =
      (Sourcify.lookupLoop s net a ["full_match", "partial_match"]).2 := by rw [e]
  have hres : (Sourcify.get_contract_metadata s chk net a).1 =
      (Sourcify.lookupLoop s net a ["full_match", "partial_match"]).1 := by rw [e]
  refine ⟨?_, ?_, ?_, ?_⟩
  · rw [htr]; exact lookupLoop_two_trace s net a
  · rcases lookupLoop_two_trace s net a with ht | ht <;> rw [htr, ht] <;> simp
  · intro j hnet hj
    rw [htr]
    have hd := do_request_json hnet
    cases habi : Sourcify._get_abi_from_metadata s j with
    | error er => rw [lookupLoop_cons_abi_error hd hj habi]
    | ok abi =>
      cases hname : Sourcify._get_name_from_metadata s j with
      | error er => rw [lookupLoop_cons_name_error hd hj habi hname]
      | ok name => rw [lookupLoop_cons_found hd hj habi hname]
  · intro m hm
    rw [hres] at hm
    rcases lookupLoop_cons_found_inv hm with ⟨hflag, htrace⟩ | ⟨hf, hm2, htrace⟩
    · left
      exact ⟨by rw [hflag]; decide, by rw [htr, htrace]⟩
    · rcases lookupLoop_cons_found_inv hm2 with ⟨hflag2, htrace2⟩ | ⟨_, hm3, _⟩
      · right
        refine ⟨by rw [hflag2]; decide, ?_⟩
        rw [htr, htrace, htrace2]
      · exact absurd hm3 (by simp [Sourcify.lookupLoop])

/-- Witness for C1: a full-match fixture is served, so only the
full-match URL is requested and the record is a full match. -/
theorem sourcify_full_match_first_witness :
    chkAll addr0 = true ∧
      (Sourcify.get_contract_metadata s0 chkAll netFull addr0).2.1 =
        [Sourcify.requestUrl s0 "full_match" addr0] :=
  ⟨rfl, (sourcify_full_match_first s0 chkAll netFull addr0 rfl).2.2.1 doc0 rfl rfl⟩

/-- C6: for every successful lookup, at either the full-match or the
partial-match attempt, when the metadata's `settings.compilationTarget`
mapping is absent or empty the returned record has `name = None` while
`abi` is still the extracted `output.abi`; when the mapping has at
least one entry, `name` is the mapping's first value. -/
theorem sourcify_name_extraction (s : Sourcify) (chk : String → Bool)
    (net : Nat → String → Nat → HttpResult) (a : String) (j abi : Json)
    (entries : List (String × Json))
    (h : chk a = true)
    (hj : j.isTruthy = true)
    (habi : Sourcify._get_abi_from_metadata s j = .ok abi)
    (hset : Json.getItem j "settings" = .ok (Json.obj entries)) :
    (net s.http_session (Sourcify.requestUrl s "full_match" a) s.request_timeout =
        .response true (some j) →
      (List.lookup "compilationTarget" entries = none →
        Sourcify.get_contract_metadata s chk net a =
          (.ok (some (ContractMetadata.mk none abi false)),
            [Sourcify.requestUrl s "full_match" a], s)) ∧
      (List.lookup "compilationTarget" entries = some (Json.obj []) →
        Sourcify.get_contract_metadata s chk net a =
          (.ok (some (ContractMetadata.mk none abi false)),
            [Sourcify.requestUrl s "full_match" a], s)) ∧
      (∀ k v tle, List.lookup "compilationTarget" entries = some (Json.obj ((k, v) :: tle)) →
        Sourcify.get_contract_metadata s chk net a =
          (.ok (some (ContractMetadata.mk (some v) abi false)),
            [Sourcify.requestUrl s "full_match" a], s))) ∧
    (attemptFallsThrough s net (Sourcify.requestUrl s "full_match" a) →
      net s.http_session (Sourcify.requestUrl s "partial_match" a) s.request_timeout =
        .response true (some j) →
      (List.lookup "compilationTarget" entries = none →
        Sourcify.get_contract_metadata s chk net a =
          (.ok (some (ContractMetadata.mk none abi true)),
            [Sourcify.requestUrl s "full_match" a, Sourcify.requestUrl s "partial_match" a],
            s)) ∧
      (List.lookup "compilationTarget" entries = some (Json.obj []) →
        Sourcify.get_contract_metadata s chk net a =
          (.ok (some (ContractMetadata.mk none abi true)),
            [Sourcify.requestUrl s "full_match" a, Sourcify.requestUrl s "partial_match" a],
            s)) ∧
      (∀ k v tle, List.lookup "compilationTarget" entries = some (Json.obj ((k, v) :: tle)) →
        Sourcify.get_contract_metadata s chk net a =
          (.ok (some (ContractMetadata.mk (some v) abi true)),
            [Sourcify.requestUrl s "full_match" a, Sourcify.requestUrl s "partial_match" a],
            s))) := by
  have hname_none : List.lookup "compilationTarget" entries = none →
      Sourcify._get_name_from_metadata s j = .ok none := by
    intro hlk
    rw [Sourcify._get_name_from_metadata, hset]
    simp [hlk, Json.dictGet, Json.values, Bind.bind, Except.bind, Pure.pure, Except.pure]
  have hname_empty : List.lookup "compilationTarget" entries = some (Json.obj []) →
      Sourcify._get_name_from_metadata s j = .ok none := by
    intro hlk
    rw [Sourcify._get_name_from_metadata, hset]
    simp [hlk, Json.dictGet, Json.values, Bind.bind, Except.bind, Pure.pure, Except.pure]
  have hname_cons : ∀ k v tle,
      List.lookup "compilationTarget" entries = some (Json.obj ((k, v) :: tle)) →
      Sourcify._get_name_from_metadata s j = .ok (some v) := by
    intro k v tle hlk
    rw [Sourcify._get_name_from_metadata, hset]
    simp [hlk, Json.dictGet, Json.values, Bind.bind, Except.bind, Pure.pure, Except.pure]
  constructor
  · intro h1
    refine ⟨?_, ?_, ?_⟩
    · intro hlk
      rw [get_contract_metadata_checksum_ok h,
        lookupLoop_cons_found (do_request_json h1) hj habi (hname_none hlk)]
      rfl
    · intro hlk
      rw [get_contract_metadata_checksum_ok h,
        lookupLoop_cons_found (do_request_json h1) hj habi (hname_empty hlk)]
      rfl
    · intro k v tle hlk
      rw [get_contract_metadata_checksum_ok h,
        lookupLoop_cons_found (do_request_json h1) hj habi (hname_cons k v tle hlk)]
      rfl
  · intro hf h2
    refine ⟨?_, ?_, ?_⟩
    · intro hlk
      rw [get_contract_metadata_checksum_ok h, lookupLoop_cons_fall hf,
        lookupLoop_cons_found (do_request_json h2) hj habi (hname_none hlk)]
      rfl
    · intro hlk
      rw [get_contract_metadata_checksum_ok h, lookupLoop_cons_fall hf,
        lookupLoop_cons_found (do_request_json h2) hj habi (hname_empty hlk)]
      rfl
    · intro k v tle hlk
      rw [get_contract_metadata_checksum_ok h, lookupLoop_cons_fall hf,
        lookupLoop_cons_found (do_request_json h2) hj habi (hname_cons k v tle hlk)]
      rfl

/-- Witness for C6: an empty `compilationTarget` gives `name = None`
with the ABI populated; a one-entry mapping gives that entry's value as
the name, at the full-match attempt and, with the full attempt 404,
at the partial-match attempt (flag true). -/
theorem sourcify_name_extraction_witness :
    Sourcify.get_contract_metadata s0 chkAll netEmptyTarget addr0 =
        (.ok (some (ContractMetadata.mk none (Json.arr [Json.str "entry"]) false)),
          [Sourcify.requestUrl s0 "full_match" addr0], s0) ∧
      Sourcify.get_contract_metadata s0 chkAll netFull addr0 =
        (.ok (some (ContractMetadata.mk (some (Json.str "MyContract"))
            (Json.arr [Json.str "entry"]) false)),
          [Sourcify.requestUrl s0 "full_match" addr0], s0) ∧
      Sourcify.get_contract_metadata s0 chkAll netPartialOnly addr0 =
        (.ok (some (ContractMetadata.mk (some (Json.str "MyContract"))
            (Json.arr [Json.str "entry"]) true)),
          [Sourcify.requestUrl s0 "full_match" addr0,
            Sourcify.requestUrl s0 "partial_match" addr0], s0) := by
  refine ⟨?_, ?_, ?_⟩
  · exact ((sourcify_name_extraction s0 chkAll netEmptyTarget addr0 docEmptyTarget
      (Json.arr [Json.str "entry"]) [("compilationTarget", Json.obj [])]
      rfl rfl rfl rfl).1 rfl).2.1 rfl
  · exact ((sourcify_name_extraction s0 chkAll netFull addr0 doc0
      (Json.arr [Json.str "entry"])
      [("compilationTarget", Json.obj [("contracts/My.sol", Json.str "MyContract")])]
      rfl rfl rfl rfl).1 rfl).2.2 "contracts/My.sol" (Json.str "MyContract") [] rfl
  · exact ((sourcify_name_extraction s0 chkAll netPartialOnly addr0 doc0
      (Json.arr [Json.str "entry"])
      [("compilationTarget", Json.obj [("contracts/My.sol", Json.str "MyContract")])]
      rfl rfl rfl rfl).2 (Or.inl rfl) rfl).2.2
      "contracts/My.sol" (Json.str "MyContract") [] rfl

/-- C9: a truthy metadata document that contains `output.abi` but has no
`settings` key makes the call raise `KeyError("settings")` instead of
returning a record with `name = None`, whether the document arrives at
the full-match or at the partial-match attempt; and
`_get_name_from_metadata` yields `None` only when `settings` is present
and its `compilationTarget` is missing or the empty mapping. -/
theorem sourcify_missing_settings_raises (s : Sourcify) (chk : String → Bool)
    (net : Nat → String → Nat → HttpResult) (a : String)
    (kvs : List (String × Json)) (abi : Json)
    (h : chk a = true)
    (hj : (Json.obj kvs).isTruthy = true)
    (habi : Sourcify._get_abi_from_metadata s (Json.obj kvs) = .ok abi)
    (hset : List.lookup "settings" kvs = none) :
    (net s.http_session (Sourcify.requestUrl s "full_match" a) s.request_timeout =
        .response true (some (Json.obj kvs)) →
      Sourcify.get_contract_metadata s chk net a =
        (.error (.keyError "settings"), [Sourcify.requestUrl s "full_match" a], s)) ∧
    (attemptFallsThrough s net (Sourcify.requestUrl s "full_match" a) →
      net s.http_session (Sourcify.requestUrl s "partial_match" a) s.request_timeout =
        .response true (some (Json.obj kvs)) →
      Sourcify.get_contract_metadata s chk net a =
        (.error (.keyError "settings"),
          [Sourcify.requestUrl s "full_match" a, Sourcify.requestUrl s "partial_match" a],
          s)) ∧
    (∀ j2, Sourcify._get_name_from_metadata s j2 = .ok none →
      ∃ entries, Json.getItem j2 "settings" = .ok (Json.obj entries) ∧
        (List.lookup "compilationTarget" entries = none ∨
          List.lookup "compilationTarget" entries = some (Json.obj []))) := by
  have hname : Sourcify._get_name_from_metadata s (Json.obj kvs) =
      .error (.keyError "settings") := by
    simp [Sourcify._get_name_from_metadata, Json.getItem, hset, Bind.bind, Except.bind]
  refine ⟨?_, ?_, ?_⟩
  · intro h1
    rw [get_contract_metadata_checksum_ok h,
      lookupLoop_cons_name_error (do_request_json h1) hj habi hname]
  · intro hf h2
    rw [get_contract_metadata_checksum_ok h, lookupLoop_cons_fall hf,
      lookupLoop_cons_name_error (do_request_json h2) hj habi hname]
  · intro j2 h2
    exact name_none_only_from_empty_target h2

/-- Witness for C9: a served document with `output.abi` but no
`settings` key raises the lookup error, both when it arrives at the
full-match attempt and when it arrives at the partial-match attempt
after a 404 full-match attempt. -/
theorem sourcify_missing_settings_raises_witness :
    chkAll addr0 = true ∧
      Sourcify.get_contract_metadata s0 chkAll netNoSettings addr0 =
        (.error (.keyError "settings"), [Sourcify.requestUrl s0 "full_match" addr0], s0) ∧
      Sourcify.get_contract_metadata s0 chkAll netNoSettingsP addr0 =
        (.error (.keyError "settings"),
          [Sourcify.requestUrl s0 "full_match" addr0,
            Sourcify.requestUrl s0 "partial_match" addr0], s0) :=
  ⟨rfl,
    (sourcify_missing_settings_raises s0 chkAll netNoSettings addr0
      [("output", Json.obj [("abi", Json.arr [Json.str "entry"])])]
      (Json.arr [Json.str "entry"]) rfl rfl rfl rfl).1 rfl,
    (sourcify_missing_settings_raises s0 chkAll netNoSettingsP addr0
      [("output", Json.obj [("abi", Json.arr [Json.str "entry"])])]
      (Json.arr [Json.str "entry"]) rfl rfl rfl rfl).2.1 (Or.inl rfl) rfl⟩
